import Mathlib

/-!
Shallow embedding of the kerala-news-api repository (src/scraper.py and
src/api.py) in Lean 4, used to settle the frozen claims about the spec.

External libraries (requests, BeautifulSoup, newspaper3k, htmldate,
deep_translator, tldextract) are modelled as oracle inputs: each external
call's outcome is an explicit argument of the embedded function
(an Except value for fallible calls).  Everything written in the
repository itself (the date cascade, the Malayalam date parser including a
faithful model of Python strptime for the three formats used, the
Malayalam paragraph filter and cleaner, the title fallback logic, the
publisher lookup, and the URL date regex) is embedded directly from the
source.  Machine strings are Lean String values; Python truthiness of a
string is emptiness.
-/

/-- One character of the Malayalam Unicode block, as matched by the regex
character class embracing U+0D00 through U+0D7F in scraper.py. -/
def malayalamChar (c : Char) : Bool :=
  decide (0xD00 ≤ c.toNat) && decide (c.toNat ≤ 0xD7F)

/-- Whitespace as matched by a regex class of Python strptime.  Python
matches Unicode whitespace; the inputs relevant here use the ASCII set
plus NBSP, which is what we model. -/
def pySpaceChar (c : Char) : Bool :=
  c == ' ' || c == '\t' || c == '\n' || c == '\r' ||
  c.toNat == 11 || c.toNat == 12 || c.toNat == 0xA0

/-- Numeric value of an ASCII digit character. -/
def digitVal (c : Char) : Nat := c.toNat - 48

/-- scraper.py translate_text_if_needed.  The GoogleTranslator network call
is the oracle tr : String to Except Unit String; an exception from it is
swallowed and the original text returned.  The guard is Python
`if text and re.search(malayalam block, text)`. -/
def translate_text_if_needed (tr : String → Except Unit String) (text : String) : String :=
  if !text.isEmpty && text.data.any malayalamChar then
    match tr text with
    | .ok res => res
    | .error _ => text
  else text

/-- Python substring containment `pat in text` on character lists. -/
def listContains (pat : List Char) : List Char → Bool
  | [] => pat.isEmpty
  | c :: rest => pat.isPrefixOf (c :: rest) || listContains pat rest

/-- Fuelled worker for replaceAll; fuel bounds the number of steps, one
character of the text is consumed per step. -/
def replaceFuel (pat repl : List Char) : Nat → List Char → List Char
  | 0, text => text
  | _ + 1, [] => []
  | n + 1, c :: rest =>
    if !pat.isEmpty && pat.isPrefixOf (c :: rest) then
      repl ++ replaceFuel pat repl n ((c :: rest).drop pat.length)
    else
      c :: replaceFuel pat repl n rest

/-- Python str.replace: replace every non-overlapping occurrence of pat,
scanning left to right.  (Python's behaviour on an empty pattern is not
needed here; this model leaves the text unchanged then.) -/
def replaceAll (pat repl text : List Char) : List Char :=
  replaceFuel pat repl text.length text

/-- The day field of Python strptime (directive for a day of month): the
alternatives 3[01], [12] with a digit, 0[1-9], [1-9], and a space then
[1-9], tried in this order with backtracking.  Every candidate is returned,
in regex preference order, with the rest of the input. -/
def dayAlts : List Char → List (Nat × List Char)
  | c1 :: c2 :: rest =>
    (if c1 == '3' && (c2 == '0' || c2 == '1') then [(30 + digitVal c2, rest)] else []) ++
    (if (c1 == '1' || c1 == '2') && c2.isDigit then [(10 * digitVal c1 + digitVal c2, rest)] else []) ++
    (if c1 == '0' && c2.isDigit && c2 != '0' then [(digitVal c2, rest)] else []) ++
    (if c1.isDigit && c1 != '0' then [(digitVal c1, c2 :: rest)] else []) ++
    (if c1 == ' ' && c2.isDigit && c2 != '0' then [(digitVal c2, rest)] else [])
  | [c1] => if c1.isDigit && c1 != '0' then [(digitVal c1, [])] else []
  | [] => []

/-- English month names with their numbers, as known to Python strptime in
the C locale. -/
def monthNames : List (String × Nat) :=
  [("january", 1), ("february", 2), ("march", 3), ("april", 4),
   ("may", 5), ("june", 6), ("july", 7), ("august", 8),
   ("september", 9), ("october", 10), ("november", 11), ("december", 12)]

/-- The full-month-name field of Python strptime: case-insensitive match of
one of the twelve month names (no name is a prefix of another, so the
alternation order is immaterial). -/
def matchMonth (cs : List Char) : Option (Nat × List Char) :=
  monthNames.findSome? fun p =>
    if (cs.take p.1.length).map Char.toLower == p.1.data then
      some (p.2, cs.drop p.1.length)
    else none

/-- A literal whitespace character of a strptime format: one or more
whitespace characters of the input (maximal munch is exact here because no
following token of the three formats can start with whitespace). -/
def wsMatch (cs : List Char) : Option (List Char) :=
  match cs with
  | c :: rest => if pySpaceChar c then some (rest.dropWhile pySpaceChar) else none
  | [] => none

/-- A literal dash of a strptime format. -/
def dashMatch (cs : List Char) : Option (List Char) :=
  match cs with
  | c :: rest => if c == '-' then some rest else none
  | [] => none

/-- A literal comma followed by whitespace, as in the third format. -/
def commaWsMatch (cs : List Char) : Option (List Char) :=
  match cs with
  | c :: rest => if c == ',' then wsMatch rest else none
  | [] => none

/-- The four-digit-year field of Python strptime: exactly four digits. -/
def year4 (cs : List Char) : Option (Nat × List Char) :=
  match cs with
  | a :: b :: c :: d :: rest =>
    if a.isDigit && b.isDigit && c.isDigit && d.isDigit then
      some (1000 * digitVal a + 100 * digitVal b + 10 * digitVal c + digitVal d, rest)
    else none
  | _ => none

/-- Python strptime for a format of the shape: day field, separator, full
month name, separator, four-digit year, end of input.  Backtracks over the
day alternatives (the only ambiguous field); the whole input must be
consumed, as strptime raises on unconverted trailing data.  Returns
(day, month, year). -/
def strptimeDXY (sep1 sep2 : List Char → Option (List Char)) (cs : List Char) :
    Option (Nat × Nat × Nat) :=
  (dayAlts cs).findSome? fun dr =>
    (sep1 dr.2).bind fun r2 =>
    (matchMonth r2).bind fun mr =>
    (sep2 mr.2).bind fun r4 =>
    (year4 r4).bind fun yr =>
    if yr.2.isEmpty then some (dr.1, mr.1, yr.1) else none

/-- The three formats tried by extract_malayalam_date, in source order:
day space month space year; day dash month dash year; day space month
comma space year. -/
def strptimeFormats : List (List Char → Option (Nat × Nat × Nat)) :=
  [strptimeDXY wsMatch wsMatch, strptimeDXY dashMatch dashMatch,
   strptimeDXY wsMatch commaWsMatch]

/-- Gregorian leap-year rule, as used by Python datetime. -/
def isLeapYear (y : Nat) : Bool :=
  (y % 4 == 0 && y % 100 != 0) || y % 400 == 0

/-- Days in a month, as validated by the Python datetime constructor. -/
def daysInMonth (y m : Nat) : Nat :=
  if m == 2 then (if isLeapYear y then 29 else 28)
  else if m == 4 || m == 6 || m == 9 || m == 11 then 30
  else 31

/-- Validity check of the Python datetime constructor (year 1 to 9999,
month 1 to 12, day within the month). -/
def validDate (y m d : Nat) : Bool :=
  decide (1 ≤ y ∧ y ≤ 9999 ∧ 1 ≤ m ∧ m ≤ 12 ∧ 1 ≤ d ∧ d ≤ daysInMonth y m)

/-- The ASCII digit character of a value below ten. -/
def digitChar (n : Nat) : Char := Char.ofNat (48 + n)

/-- Two-digit zero-padded decimal, as Python strftime prints months and
days. -/
def pad2 (n : Nat) : String := String.mk [digitChar (n / 10 % 10), digitChar (n % 10)]

/-- Four-digit decimal, as Python strftime prints the four-digit years
relevant here (years below 1000 are platform dependent in Python and are
never produced by the claims' inputs). -/
def pad4 (n : Nat) : String :=
  String.mk [digitChar (n / 1000 % 10), digitChar (n / 100 % 10),
             digitChar (n / 10 % 10), digitChar (n % 10)]

/-- strftime of the year-month-day format used throughout scraper.py. -/
def fmtYMD (y m d : Nat) : String := pad4 y ++ "-" ++ pad2 m ++ "-" ++ pad2 d

/-- scraper.py MALAYALAM_MONTHS, in dict insertion order (Python dicts
iterate in insertion order). -/
def MALAYALAM_MONTHS : List (String × String) :=
  [("ജനുവരി", "January"), ("ഫെബ്രുവരി", "February"), ("മാർച്ച്", "March"),
   ("ഏപ്രിൽ", "April"), ("മേയ്", "May"), ("ജൂൺ", "June"),
   ("ജൂലൈ", "July"), ("ആഗസ്റ്റ്", "August"), ("സെപ്റ്റംബർ", "September"),
   ("ഒക്ടോബർ", "October"), ("നവംബർ", "November"), ("ഡിസംബർ", "December"),
   ("ഡിസം", "December")]

/-- scraper.py extract_malayalam_date: for each Malayalam month name found
as a substring of the text (in dict order), replace every occurrence with
the English name and try the three strptime formats in order; the first
format that parses the WHOLE substituted text to a valid calendar date
wins and is printed year-month-day; a parse or validity failure moves on
(to the next format, then the next month name); if nothing succeeds the
result is none. -/
def extract_malayalam_date (text : String) : Option String :=
  MALAYALAM_MONTHS.findSome? fun me =>
    if listContains me.1.data text.data then
      strptimeFormats.findSome? fun f =>
        match f (replaceAll me.1.data me.2.data text.data) with
        | some dmy =>
          if validDate dmy.2.2 dmy.2.1 dmy.1 then some (fmtYMD dmy.2.2 dmy.2.1 dmy.1)
          else none
        | none => none
    else none



/-- A character kept by the paragraph cleaner of extract_malayalam_text: a
space or a Malayalam-block character (the complement of the regex class
used in the substitution). -/
def keepChar (c : Char) : Bool := c == ' ' || malayalamChar c

/-- Worker for the regex substitution of extract_malayalam_text.  The flag
records whether the previous character was part of a run of non-kept
characters (for which a single space has already been emitted). -/
def cleanAux : Bool → List Char → List Char
  | _, [] => []
  | inRun, c :: rest =>
    if keepChar c then c :: cleanAux false rest
    else if inRun then cleanAux true rest
    else ' ' :: cleanAux true rest

/-- The regex substitution of extract_malayalam_text: every maximal run of
characters that are neither a space nor Malayalam is replaced by one
space. -/
def cleanPara (cs : List Char) : List Char := cleanAux false cs

/-- Python str.strip: drop whitespace from both ends. -/
def pyStrip (cs : List Char) : List Char :=
  ((cs.dropWhile pySpaceChar).reverse.dropWhile pySpaceChar).reverse

/-- Python str.strip on a String. -/
def pyStripS (s : String) : String := String.mk (pyStrip s.data)

/-- scraper.py extract_malayalam_text.  BeautifulSoup is external, so the
page is modelled by the list of the texts of its paragraph elements (the
get_text result of each p tag).  A paragraph is kept when its text has a
Malayalam-block character; a kept paragraph is cleaned by the
substitution, stripped, and the results are joined by single spaces (the
join of no paragraphs being the empty string, as in the source). -/
def extract_malayalam_text (ps : List String) : String :=
  String.intercalate " "
    (ps.filterMap fun p =>
      if p.data.any malayalamChar then some (String.mk (pyStrip (cleanPara p.data)))
      else none)

/-- The body extraction as the words of claim C3 describe it: within a
kept paragraph every character that is neither Malayalam nor a space is
removed (rather than replaced by a space).  This definition follows the
claim, to be compared with extract_malayalam_text from the source. -/
def extract_malayalam_text_removal (ps : List String) : String :=
  String.intercalate " "
    (ps.filterMap fun p =>
      if p.data.any malayalamChar then some (String.mk (pyStrip (p.data.filter keepChar)))
      else none)

/-- An independent rendering of the corrected cleaning rule, emitting the
single space at the end of each run of non-kept characters; used to state
the amended claim C3 without restating cleanPara. -/
def cleanRuns : List Char → List Char
  | [] => []
  | [c] => if keepChar c then [c] else [' ']
  | c :: d :: rest =>
    if keepChar c then c :: cleanRuns (d :: rest)
    else if keepChar d then ' ' :: cleanRuns (d :: rest)
    else cleanRuns (d :: rest)


/-- scraper.py MEDIA_MAP. -/
def MEDIA_MAP : List (String × String) :=
  [("manoramaonline", "Malayala Manorama"),
   ("onmanorama", "Onmanorama"),
   ("mathrubhumi", "Mathrubhumi News"),
   ("asianetnews", "Asianet News"),
   ("keralakaumudi", "Kerala Kaumudi"),
   ("janmabhumi", "Janmabhumi"),
   ("deshabhimani", "Deshabhimani"),
   ("news18", "News18 Malayalam"),
   ("thehindu", "The Hindu"),
   ("timesofindia", "Times of India"),
   ("indiatoday", "India Today")]

/-- Python str.lower, on the ASCII letters that occur in domain tokens. -/
def strToLower (s : String) : String := String.mk (s.data.map Char.toLower)

/-- Python str.capitalize: first character uppercased, the rest
lowercased. -/
def pyCapitalize (s : String) : String :=
  match s.data with
  | [] => ""
  | c :: rest => String.mk (Char.toUpper c :: rest.map Char.toLower)

/-- Lines 97 to 100 of scraper.py: the registered-domain token produced by
tldextract (external, hence an input) is lowercased and looked up in
MEDIA_MAP; a miss falls back to the capitalized token. -/
def resolve_media_source (domainTok : String) : String :=
  match MEDIA_MAP.lookup (strToLower domainTok) with
  | some v => v
  | none => pyCapitalize (strToLower domainTok)


/-- The parts of a BeautifulSoup parse of the fetched HTML that scraper.py
reads: the text of the title tag when that tag exists, the texts of the
paragraph elements, and the full text of the page (soup.text). -/
structure Soup where
  titleTag : Option String
  paragraphs : List String
  text : String
deriving DecidableEq

/-- BeautifulSoup of the empty HTML string, which line 93 substitutes when
the page fetch fails. -/
def emptySoup : Soup := ⟨none, [], ""⟩

/-- The parts of a successful newspaper3k Article download and parse that
scraper.py reads: the title string and the publish date (a year, month,
day triple) when present. -/
structure ArticleData where
  title : String
  publish_date : Option (Nat × Nat × Nat)
deriving DecidableEq

/-- The soup used downstream: the parsed page on a successful fetch, the
parse of the empty string when the fetch raised. -/
def soupOf (fetch : Except Unit Soup) : Soup :=
  match fetch with
  | .ok s => s
  | .error _ => emptySoup

/-- Method A of the date cascade (lines 137 to 142): the htmldate
find_date call is external, so its outcome is an input; an exception or a
falsy result (None or the empty string) produces no value. -/
def methodA (fd : Except Unit (Option String)) : Option String :=
  match fd with
  | .ok (some f) => if f.isEmpty then none else some f
  | _ => none

/-- Method C of the date cascade (lines 151 to 155): when the structured
article pass succeeded and recorded a publish date, that date printed
year-month-day; a failed pass (article None or unparsed) has no date. -/
def methodC (art : Except Unit ArticleData) : Option String :=
  match art with
  | .ok a => a.publish_date.map fun ymd => fmtYMD ymd.1 ymd.2.1 ymd.2.2
  | .error _ => none

/-- One attempt of the URL date regex at a fixed position: a slash, four
digits, a slash or dash, two digits, a slash or dash, two digits; no
boundary is required after the last digit. -/
def matchDateAt (cs : List Char) : Option (String × String × String) :=
  match cs with
  | sl :: a :: b :: c :: d :: s1 :: e :: f :: s2 :: g :: h :: _ =>
    if sl == '/' && a.isDigit && b.isDigit && c.isDigit && d.isDigit &&
       (s1 == '/' || s1 == '-') && e.isDigit && f.isDigit &&
       (s2 == '/' || s2 == '-') && g.isDigit && h.isDigit then
      some (String.mk [a, b, c, d], String.mk [e, f], String.mk [g, h])
    else none
  | _ => none

/-- re.search of the URL date pattern: the leftmost position where the
pattern matches, scanning left to right. -/
def searchDate : List Char → Option (String × String × String)
  | [] => none
  | c :: rest =>
    match matchDateAt (c :: rest) with
    | some r => some r
    | none => searchDate rest

/-- Method D of the date cascade (lines 157 to 160): the URL regex match,
with the three digit groups joined by hyphens as in the f-string. -/
def urlDateSearch (url : String) : Option String :=
  (searchDate url.data).map fun t => t.1 ++ "-" ++ t.2.1 ++ "-" ++ t.2.2


/-- Lines 134 to 163 of scraper.py: pub_date_str starts empty, each method
assigns only when every earlier method left it empty, and the sentinel
fills in when all four methods produced nothing. -/
def dateCascade (a b c d : Option String) : String :=
  match a with
  | some v => v
  | none =>
    match b with
    | some v => v
    | none =>
      match c with
      | some v => v
      | none =>
        match d with
        | some v => v
        | none => "Date Not Found"

/-- scraper.py analyze_news_article.  External effects are inputs: the
domain token from tldextract, the page fetch, the structured article pass,
the htmldate call, and the translation service.  The result is the dict
literal of lines 168 to 174, as a key-value list in its insertion
order. -/
def analyze_news_article (url domainTok : String) (fetch : Except Unit Soup)
    (art : Except Unit ArticleData) (fd : Except Unit (Option String))
    (tr : String → Except Unit String) : List (String × String) :=
  let soup := soupOf fetch
  let title0 : String :=
    match art with
    | .ok a => if a.title.isEmpty then "No Title Found" else pyStripS a.title
    | .error _ =>
      match soup.titleTag with
      | some t => pyStripS t
      | none => "No Title Found"
  let title := translate_text_if_needed tr title0
  let mal_text := extract_malayalam_text soup.paragraphs
  let summary :=
    if mal_text.isEmpty then "No readable Malayalam content found."
    else translate_text_if_needed tr mal_text
  let date := dateCascade (methodA fd) (extract_malayalam_date soup.text)
    (methodC art) (urlDateSearch url)
  [("url", url), ("media_source", resolve_media_source domainTok),
   ("date", date), ("title", title), ("summary", summary)]

/-- Field access on the returned record. -/
def field (r : List (String × String)) (k : String) : String :=
  (r.lookup k).getD ""

/-- api.py scrape: a result of analyze_news_article is returned as JSON
with status 200; an exception text is wrapped by HTTPException into a
status 500 response with a detail field. -/
def scrape (result : Except String (List (String × String))) :
    Nat × List (String × String) :=
  match result with
  | .ok d => (200, d)
  | .error e => (500, [("detail", e)])

/-- The date field of the returned record is the cascade over the four
methods. -/
theorem field_analyze_date (url domainTok : String) (fetch : Except Unit Soup)
    (art : Except Unit ArticleData) (fd : Except Unit (Option String))
    (tr : String → Except Unit String) :
    field (analyze_news_article url domainTok fetch art fd tr) "date" =
      dateCascade (methodA fd) (extract_malayalam_date (soupOf fetch).text)
        (methodC art) (urlDateSearch url) := rfl

/-- The title field of the returned record is the translated fallback
choice. -/
theorem field_analyze_title (url domainTok : String) (fetch : Except Unit Soup)
    (art : Except Unit ArticleData) (fd : Except Unit (Option String))
    (tr : String → Except Unit String) :
    field (analyze_news_article url domainTok fetch art fd tr) "title" =
      translate_text_if_needed tr
        (match art with
         | .ok a => if a.title.isEmpty then "No Title Found" else pyStripS a.title
         | .error _ =>
           match (soupOf fetch).titleTag with
           | some t => pyStripS t
           | none => "No Title Found") := rfl

/-- The summary field of the returned record. -/
theorem field_analyze_summary (url domainTok : String) (fetch : Except Unit Soup)
    (art : Except Unit ArticleData) (fd : Except Unit (Option String))
    (tr : String → Except Unit String) :
    field (analyze_news_article url domainTok fetch art fd tr) "summary" =
      (if (extract_malayalam_text (soupOf fetch).paragraphs).isEmpty then
        "No readable Malayalam content found."
      else translate_text_if_needed tr (extract_malayalam_text (soupOf fetch).paragraphs)) := rfl

/-- A kept head character passes through the run cleaner unchanged. -/
theorem cleanRuns_cons_keep (c : Char) (cs : List Char) (h : keepChar c = true) :
    cleanRuns (c :: cs) = c :: cleanRuns cs := by
  cases cs with
  | nil => simp [cleanRuns, h]
  | cons d r => simp [cleanRuns, h]

/-- A head character opening a run of non-kept characters contributes one
space, and the cleaner resumes after the run. -/
theorem cleanRuns_cons_bad (cs : List Char) : ∀ c, keepChar c = false →
    cleanRuns (c :: cs) = ' ' :: cleanRuns (cs.dropWhile fun x => !keepChar x) := by
  induction cs with
  | nil => intro c h; simp [cleanRuns, h]
  | cons d r ih =>
    intro c h
    cases hd : keepChar d with
    | true => simp [cleanRuns, h, hd, List.dropWhile_cons]
    | false =>
      have := ih d hd
      simp only [cleanRuns, h, hd, if_false, Bool.false_eq_true] at this ⊢
      rw [List.dropWhile_cons]
      simpa [hd] using this

/-- The space-at-run-start cleaner of the source equals the
space-at-run-end rendering, in both of its states. -/
theorem cleanAux_eq_cleanRuns (cs : List Char) :
    cleanAux false cs = cleanRuns cs ∧
    cleanAux true cs = cleanRuns (cs.dropWhile fun x => !keepChar x) := by
  induction cs with
  | nil => exact ⟨rfl, rfl⟩
  | cons c rest ih =>
    cases hc : keepChar c with
    | false =>
      constructor
      · rw [cleanRuns_cons_bad rest c hc]
        simp [cleanAux, hc, ih.2]
      · simp [cleanAux, hc, ih.2, List.dropWhile_cons]
    | true =>
      constructor
      · rw [cleanRuns_cons_keep c rest hc]
        simp [cleanAux, hc, ih.1]
      · rw [List.dropWhile_cons]
        simp only [hc, Bool.not_true, if_false, Bool.false_eq_true]
        rw [cleanRuns_cons_keep c rest hc]
        simp [cleanAux, hc, ih.1]

/-- The paragraph cleaner of the source, written as run replacement. -/
theorem cleanPara_eq_cleanRuns (cs : List Char) : cleanPara cs = cleanRuns cs :=
  (cleanAux_eq_cleanRuns cs).1

/-- When no paragraph holds a Malayalam character, the body extraction is
empty. -/
theorem extract_malayalam_text_eq_empty (ps : List String)
    (h : ∀ p ∈ ps, p.data.any malayalamChar = false) :
    extract_malayalam_text ps = "" := by
  unfold extract_malayalam_text
  have hnil : (ps.filterMap fun p =>
      if p.data.any malayalamChar then some (String.mk (pyStrip (cleanPara p.data)))
      else none) = [] := by
    induction ps with
    | nil => rfl
    | cons q qs ih =>
      rw [List.filterMap_cons]
      have hq := h q (List.mem_cons_self q qs)
      simp only [hq, Bool.false_eq_true, if_false]
      exact ih fun p hp => h p (List.mem_cons_of_mem q hp)
  rw [hnil]
  rfl

/-- C1: the date cascade respects its fixed tier order.  Tier (a) is the
generic htmldate inference, tier (b) the Malayalam-literal scan of the
page text, tier (c) the structured-parse metadata date, tier (d) the URL
regex; each later tier determines the date only when every earlier tier
produced no value, and a value of tier (a) wins over everything. -/
theorem claim_C1_date_cascade_order (url domainTok : String) (fetch : Except Unit Soup)
    (art : Except Unit ArticleData) (fd : Except Unit (Option String))
    (tr : String → Except Unit String) :
    (∀ v, methodA fd = some v →
      field (analyze_news_article url domainTok fetch art fd tr) "date" = v) ∧
    (methodA fd = none → ∀ v,
      extract_malayalam_date (soupOf fetch).text = some v →
      field (analyze_news_article url domainTok fetch art fd tr) "date" = v) ∧
    (methodA fd = none → extract_malayalam_date (soupOf fetch).text = none →
      ∀ v, methodC art = some v →
      field (analyze_news_article url domainTok fetch art fd tr) "date" = v) ∧
    (methodA fd = none → extract_malayalam_date (soupOf fetch).text = none →
      methodC art = none → ∀ v, urlDateSearch url = some v →
      field (analyze_news_article url domainTok fetch art fd tr) "date" = v) := by
  refine ⟨?_, ?_, ?_, ?_⟩
  · intro v h
    rw [field_analyze_date, h]
    rfl
  · intro h1 v h2
    rw [field_analyze_date, h1, h2]
    rfl
  · intro h1 h2 v h3
    rw [field_analyze_date, h1, h2, h3]
    rfl
  · intro h1 h2 h3 v h4
    rw [field_analyze_date, h1, h2, h3, h4]
    rfl

/-- Witness for C1: with a URL whose path date is the only viable signal
the returned date is 2024-12-07, and with a successful generic inference
on the same URL the generic result wins. -/
theorem claim_C1_date_cascade_order_witness :
    field (analyze_news_article "https://ex.com/2024/12/07/story" "ex" (.error ())
      (.error ()) (.error ()) fun _ => .error ()) "date" = "2024-12-07" ∧
    field (analyze_news_article "https://ex.com/2024/12/07/story" "ex" (.error ())
      (.error ()) (.ok (some "2025-01-01")) fun _ => .error ()) "date" = "2025-01-01" := by
  constructor
  · exact (claim_C1_date_cascade_order "https://ex.com/2024/12/07/story" "ex"
      (.error ()) (.error ()) (.error ()) fun _ => .error ()).2.2.2
      rfl (by decide) rfl "2024-12-07" (by decide)
  · exact (claim_C1_date_cascade_order "https://ex.com/2024/12/07/story" "ex"
      (.error ()) (.error ()) (.ok (some "2025-01-01")) fun _ => .error ()).1
      "2025-01-01" (by decide)

/-- C2 counterexample: the text below contains the substring
7 ഡിസംബർ 2024, yet the extraction yields nothing, because Python strptime
must match the whole string and the leading extra text makes every format
fail; the claim predicted 2024-12-07 for every text containing the
substring. -/
theorem claim_C2_counterexample :
    listContains "7 ഡിസംബർ 2024".data "x 7 ഡിസംബർ 2024".data = true ∧
    extract_malayalam_date "x 7 ഡിസംബർ 2024" = none := by decide

/-- C2 amended: for input text that is exactly a Malayalam date (so that
the whole substituted text matches a format), the extraction substitutes
the English month name and parses against the three formats in order,
yielding the year-month-day form; in particular the text 7 ഡിസംബർ 2024
itself yields 2024-12-07, as do its dash and comma format variants. -/
theorem claim_C2_amended :
    extract_malayalam_date "7 ഡിസംബർ 2024" = some "2024-12-07" ∧
    extract_malayalam_date "7-ഡിസംബർ-2024" = some "2024-12-07" ∧
    extract_malayalam_date "7 ഡിസംബർ, 2024" = some "2024-12-07" := by decide

/-- C3 counterexample: on a page with the single paragraph ക:ഖ the code
turns the colon into a space, giving the two words ക ഖ, while the claim's
removal semantics would glue the letters into കഖ. -/
theorem claim_C3_counterexample :
    extract_malayalam_text ["ക:ഖ"] = "ക ഖ" ∧
    extract_malayalam_text_removal ["ക:ഖ"] = "കഖ" ∧
    extract_malayalam_text ["ക:ഖ"] ≠ extract_malayalam_text_removal ["ക:ഖ"] := by decide

/-- C3 amended: body extraction keeps exactly the paragraphs containing a
Malayalam-block character, and within each kept paragraph every maximal
run of characters that are neither Malayalam nor a space is replaced by a
single space (not removed); the surviving texts are trimmed and joined
with single spaces. -/
theorem claim_C3_amended (ps : List String) :
    extract_malayalam_text ps =
      String.intercalate " " (ps.filterMap fun p =>
        if p.data.any malayalamChar then some (String.mk (pyStrip (cleanRuns p.data)))
        else none) := by
  unfold extract_malayalam_text
  simp only [cleanPara_eq_cleanRuns]

/-- C4 counterexample: the structured pass fails and the title tag of the
fetched HTML is present but empty, so neither source yields text, yet the
returned title is the empty string rather than the sentinel No Title
Found: line 121 overwrites the sentinel with the stripped tag text even
when that text is empty. -/
theorem claim_C4_counterexample :
    field (analyze_news_article "u" "d" (.ok ⟨some "", [], ""⟩) (.error ()) (.error ())
      fun _ => .error ()) "title" = "" ∧
    field (analyze_news_article "u" "d" (.ok ⟨some "", [], ""⟩) (.error ()) (.error ())
      fun _ => .error ()) "title" ≠ "No Title Found" := by decide

/-- C4 amended: the structured title is taken, stripped, when non-empty;
when the structured pass succeeds with an empty title the sentinel No
Title Found stands; on failure of the structured pass the stripped text of
an existing title tag is used, even when that text is empty, and the
sentinel appears only when no title tag exists; the chosen title is passed
through translation (which leaves the sentinel unchanged, it holding no
Malayalam character). -/
theorem claim_C4_amended (url domainTok : String) (fetch : Except Unit Soup)
    (art : Except Unit ArticleData) (fd : Except Unit (Option String))
    (tr : String → Except Unit String) :
    (∀ a, art = .ok a → a.title ≠ "" →
      field (analyze_news_article url domainTok fetch art fd tr) "title" =
        translate_text_if_needed tr (pyStripS a.title)) ∧
    (∀ a, art = .ok a → a.title = "" →
      field (analyze_news_article url domainTok fetch art fd tr) "title" =
        "No Title Found") ∧
    (art = .error () → ∀ t, (soupOf fetch).titleTag = some t →
      field (analyze_news_article url domainTok fetch art fd tr) "title" =
        translate_text_if_needed tr (pyStripS t)) ∧
    (art = .error () → (soupOf fetch).titleTag = none →
      field (analyze_news_article url domainTok fetch art fd tr) "title" =
        "No Title Found") := by
  refine ⟨?_, ?_, ?_, ?_⟩
  · intro a ha hne
    rw [field_analyze_title, ha]
    have : a.title.isEmpty = false := by
      cases he : a.title.isEmpty with
      | false => rfl
      | true => exact absurd ((String.isEmpty_iff a.title).mp he) hne
    simp [this]
  · intro a ha he
    rw [field_analyze_title, ha]
    show translate_text_if_needed tr
      (if a.title.isEmpty then "No Title Found" else pyStripS a.title) = "No Title Found"
    rw [he]
    rfl
  · intro ha t ht
    rw [field_analyze_title, ha, ht]
  · intro ha ht
    rw [field_analyze_title, ha, ht]
    rfl

/-- Witness for C4 amended: the four cases at concrete inputs, with a
failing translation oracle, so that the non-Malayalam titles pass through
unchanged. -/
theorem claim_C4_amended_witness :
    field (analyze_news_article "u" "d" (.error ()) (.ok ⟨" Hi ", none⟩) (.error ())
      fun _ => .error ()) "title" = "Hi" ∧
    field (analyze_news_article "u" "d" (.error ()) (.ok ⟨"", none⟩) (.error ())
      fun _ => .error ()) "title" = "No Title Found" ∧
    field (analyze_news_article "u" "d" (.ok ⟨some " Tag ", [], ""⟩) (.error ()) (.error ())
      fun _ => .error ()) "title" = "Tag" ∧
    field (analyze_news_article "u" "d" (.ok ⟨none, [], ""⟩) (.error ()) (.error ())
      fun _ => .error ()) "title" = "No Title Found" := by
  refine ⟨?_, ?_, ?_, ?_⟩
  · exact ((claim_C4_amended "u" "d" (.error ()) (.ok ⟨" Hi ", none⟩) (.error ())
      fun _ => .error ()).1 ⟨" Hi ", none⟩ rfl (by decide)).trans (by decide)
  · exact (claim_C4_amended "u" "d" (.error ()) (.ok ⟨"", none⟩) (.error ())
      fun _ => .error ()).2.1 ⟨"", none⟩ rfl rfl
  · exact ((claim_C4_amended "u" "d" (.ok ⟨some " Tag ", [], ""⟩) (.error ()) (.error ())
      fun _ => .error ()).2.2.1 rfl " Tag " rfl).trans (by decide)
  · exact (claim_C4_amended "u" "d" (.ok ⟨none, [], ""⟩) (.error ()) (.error ())
      fun _ => .error ()).2.2.2 rfl rfl

/-- C5: the media source is the MEDIA_MAP entry of the lowercased
registered-domain token when one exists, and the capitalized token
otherwise; the media_source field of the record is exactly this
resolution, for every URL and every oracle outcome. -/
theorem claim_C5_media_source (domainTok : String) :
    (∀ url fetch art fd tr,
      field (analyze_news_article url domainTok fetch art fd tr) "media_source" =
        resolve_media_source domainTok) ∧
    (∀ v, MEDIA_MAP.lookup (strToLower domainTok) = some v →
      resolve_media_source domainTok = v) ∧
    (MEDIA_MAP.lookup (strToLower domainTok) = none →
      resolve_media_source domainTok = pyCapitalize (strToLower domainTok)) := by
  refine ⟨fun url fetch art fd tr => rfl, ?_, ?_⟩
  · intro v h
    unfold resolve_media_source
    rw [h]
  · intro h
    unfold resolve_media_source
    rw [h]

/-- Witness for C5: a mapped domain in mixed case resolves through the
map, an unmapped one is capitalized. -/
theorem claim_C5_media_source_witness :
    resolve_media_source "ManoramaOnline" = "Malayala Manorama" ∧
    resolve_media_source "example" = "Example" := by
  constructor
  · exact (claim_C5_media_source "ManoramaOnline").2.1 "Malayala Manorama" (by decide)
  · exact ((claim_C5_media_source "example").2.2 (by decide)).trans (by decide)

/-- The cascade with the first three tiers empty is the URL-regex result
with the sentinel as default. -/
theorem dateCascade_getD (o : Option String) :
    dateCascade none none none o = o.getD "Date Not Found" := by
  cases o <;> rfl

/-- C6: with every modelled sub-step failing (page fetch, structured
parse, generic date inference, and any translation outcome) the analysis
still returns the well-formed five-field record with each field at its
fallback, and the endpoint wraps it with status 200; only an exception
escaping the sub-steps is reported as status 500 with the exception
text. -/
theorem claim_C6_no_raise (url domainTok : String) (tr : String → Except Unit String)
    (e : String) :
    scrape (.ok (analyze_news_article url domainTok (.error ()) (.error ()) (.error ()) tr)) =
      (200, [("url", url), ("media_source", resolve_media_source domainTok),
             ("date", (urlDateSearch url).getD "Date Not Found"),
             ("title", "No Title Found"),
             ("summary", "No readable Malayalam content found.")]) ∧
    scrape (.error e) = (500, [("detail", e)]) := by
  constructor
  · rw [← dateCascade_getD (urlDateSearch url)]
    rfl
  · rfl

/-- C7: translation is the identity on text without a Malayalam-block
character, whatever the translation service would answer (the service is
never consulted: the result is the same for every oracle). -/
theorem claim_C7_translate_noop (tr : String → Except Unit String) (text : String)
    (h : text.data.any malayalamChar = false) :
    translate_text_if_needed tr text = text := by
  simp [translate_text_if_needed, h]

/-- Witness for C7: a service that would rewrite everything leaves a
non-Malayalam text untouched. -/
theorem claim_C7_translate_noop_witness :
    translate_text_if_needed (fun _ => .ok "CHANGED") "hello world" = "hello world" :=
  claim_C7_translate_noop (fun _ => .ok "CHANGED") "hello world" (by decide)

/-- C8: when no paragraph of the fetched page holds a Malayalam-block
character, the summary is the exact sentinel, and the result is the same
for every translation oracle, translation being skipped. -/
theorem claim_C8_summary_sentinel (url domainTok : String) (fetch : Except Unit Soup)
    (art : Except Unit ArticleData) (fd : Except Unit (Option String))
    (tr : String → Except Unit String)
    (h : ∀ p ∈ (soupOf fetch).paragraphs, p.data.any malayalamChar = false) :
    field (analyze_news_article url domainTok fetch art fd tr) "summary" =
      "No readable Malayalam content found." := by
  rw [field_analyze_summary, extract_malayalam_text_eq_empty (soupOf fetch).paragraphs h]
  rfl

/-- Witness for C8: a page whose paragraphs carry no Malayalam character,
under a translation oracle that would rewrite everything. -/
theorem claim_C8_summary_sentinel_witness :
    field (analyze_news_article "u" "d" (.ok ⟨some "T", ["hello", "123 abc"], "body"⟩)
      (.error ()) (.error ()) fun _ => .ok "CHANGED") "summary" =
      "No readable Malayalam content found." :=
  claim_C8_summary_sentinel "u" "d" (.ok ⟨some "T", ["hello", "123 abc"], "body"⟩)
    (.error ()) (.error ()) (fun _ => .ok "CHANGED") (by decide)

/-- C9: for every input and every oracle outcome the returned record has
exactly the five documented fields, in order, and its url field is the
input URL verbatim. -/
theorem claim_C9_record_shape (url domainTok : String) (fetch : Except Unit Soup)
    (art : Except Unit ArticleData) (fd : Except Unit (Option String))
    (tr : String → Except Unit String) :
    (analyze_news_article url domainTok fetch art fd tr).map Prod.fst =
      ["url", "media_source", "date", "title", "summary"] ∧
    field (analyze_news_article url domainTok fetch art fd tr) "url" = url :=
  ⟨rfl, rfl⟩

/-- C10: the URL date tier does no calendar validation.  Whenever the
first three tiers are empty and the URL regex finds its leftmost match,
the date is the three digit groups joined by hyphens, whatever their
values; the pattern accepts month 99 and day 99, and its two-digit groups
match inside longer digit runs, there being no trailing boundary. -/
theorem claim_C10_url_regex_no_validation (url domainTok : String) (fetch : Except Unit Soup)
    (art : Except Unit ArticleData) (fd : Except Unit (Option String))
    (tr : String → Except Unit String) :
    (methodA fd = none → extract_malayalam_date (soupOf fetch).text = none →
      methodC art = none → ∀ y m d, searchDate url.data = some (y, m, d) →
      field (analyze_news_article url domainTok fetch art fd tr) "date" =
        y ++ "-" ++ m ++ "-" ++ d) ∧
    urlDateSearch "https://ex.com/2024/99/99-page" = some "2024-99-99" ∧
    urlDateSearch "https://ex.com/a/2024/12/345" = some "2024-12-34" := by
  refine ⟨?_, by decide, by decide⟩
  intro h1 h2 h3 y m d h4
  rw [field_analyze_date, h1, h2, h3]
  show dateCascade none none none (urlDateSearch url) = y ++ "-" ++ m ++ "-" ++ d
  unfold urlDateSearch
  rw [h4]
  rfl

/-- Witness for C10: with every earlier tier failing, a URL carrying the
calendar-invalid segment 2024/99/99 yields the date 2024-99-99. -/
theorem claim_C10_url_regex_no_validation_witness :
    field (analyze_news_article "https://n.com/2024/99/99" "n" (.error ()) (.error ())
      (.error ()) fun _ => .error ()) "date" = "2024-99-99" :=
  ((claim_C10_url_regex_no_validation "https://n.com/2024/99/99" "n" (.error ())
    (.error ()) (.error ()) fun _ => .error ()).1 rfl (by decide) rfl
    "2024" "99" "99" (by decide)).trans (by decide)
